import Mathlib

/-!
Verification of the IHT Seller Net Sheet engine (Indiana tax proration,
owner's policy premium table, title-fee aggregation, net-sheet total).

The definitions below are a shallow embedding of the pure computation
functions of the two engine variants
(`iht_seller_net_sheet_generator_indiana_tax_proration.jsx`, referred to
as variant A, and the county-schedule variant in `unnamed/part_000`,
referred to as variant B). Conventions of the embedding:

* JavaScript numbers are modeled as exact rationals (`ℚ`).  The
  `Number.EPSILON` fudge term inside `round2` exists only to compensate
  binary floating-point representation error and is dropped: in exact
  arithmetic `Math.round((n + EPSILON) * 100)` equals `⌊n * 100 + 1/2⌋`
  for the magnitudes handled here (`Math.round(x) = ⌊x + 1/2⌋`).
* A UTC calendar date (the JS `Date` objects, which the engine only ever
  uses at day granularity) is modeled by its day number: the number of
  days since 1970-01-01.  `getTime()` comparisons coincide with day-number
  comparisons, `addDaysUTC` is addition, and `getUTCFullYear` /
  `Date.UTC(year, 0, 1)` are the standard proleptic-Gregorian civil
  conversions (`yearOfDay` / `daysFromCivil`, the algorithms used by
  JS engines).  The `prorationEndYMD` string is represented by the day
  number itself (`ymd` is injective on day numbers).
* The item labels of the title-fee aggregator are modeled by an
  enumeration `FeeLabel` instead of the display strings.
* `x || 0` guards (which replace `NaN` by `0`) are subsumed by the
  `max _ 0` clamps they always accompany, or dropped where the operand
  is an exact rational by construction.
-/

/-! ### Calendar model -/

/-- Day number of the civil date `y-m-d` (days since 1970-01-01),
the standard civil-from-days inverse used by JS `Date.UTC`. -/
def daysFromCivil (y m d : ℤ) : ℤ :=
  let y1 := if m ≤ 2 then y - 1 else y
  let era := y1.fdiv 400
  let yoe := y1 - era * 400
  let mAdj := if 2 < m then m - 3 else m + 9
  let doy := (153 * mAdj + 2) / 5 + d - 1
  let doe := yoe * 365 + yoe / 4 - yoe / 100 + doy
  era * 146097 + doe - 719468

/-- Calendar year of a day number, as computed by `Date.getUTCFullYear`. -/
def yearOfDay (z : ℤ) : ℤ :=
  let z1 := z + 719468
  let era := z1.fdiv 146097
  let doe := z1 - era * 146097
  let yoe := (doe - doe / 1460 + doe / 36524 - doe / 146096) / 365
  let y := yoe + era * 400
  let doy := doe - (365 * yoe + yoe / 4 - yoe / 100)
  let mp := (5 * doy + 2) / 153
  let m := if mp < 10 then mp + 3 else mp - 9
  if m ≤ 2 then y + 1 else y

/-- Day number of January 1 of year `y` (`new Date(Date.UTC(year, 0, 1))`). -/
def jan1Day (y : ℤ) : ℤ := daysFromCivil y 1 1

/-- Source `addDaysUTC`: shift a date by a number of days. -/
def addDaysUTC (z days : ℤ) : ℤ := z + days

/-- Source `daysBetweenInclusiveUTC`: inclusive day count, `0` when the
end precedes the start. -/
def daysBetweenInclusiveUTC (s e : ℤ) : ℤ := if e < s then 0 else e - s + 1

/-- Source `isLeapYear`. -/
def isLeapYear (year : ℤ) : Bool := year % 400 = 0 ∨ (year % 4 = 0 ∧ year % 100 ≠ 0)

/-! ### Rounding -/

/-- Source `round2`: round to cents, half away from zero on the positive
side (`Math.round((n + Number.EPSILON) * 100) / 100` in exact arithmetic). -/
def round2 (n : ℚ) : ℚ := ((⌊n * 100 + 1 / 2⌋ : ℤ) : ℚ) / 100

theorem round2_intCast (n : ℤ) : round2 (n : ℚ) = (n : ℚ) := by
  unfold round2
  have h1 : (n : ℚ) * 100 + 1 / 2 = ((n * 100 : ℤ) : ℚ) + 1 / 2 := by push_cast; ring
  have h3 : (⌊(1 / 2 : ℚ)⌋ : ℤ) = 0 := by norm_num
  rw [h1, Int.floor_int_add, h3]
  push_cast
  ring

theorem round2_idem (q : ℚ) : round2 (round2 q) = round2 q := by
  unfold round2
  have h1 : ((⌊q * 100 + 1 / 2⌋ : ℤ) : ℚ) / 100 * 100 + 1 / 2
      = ((⌊q * 100 + 1 / 2⌋ : ℤ) : ℚ) + 1 / 2 := by ring
  have h3 : (⌊(1 / 2 : ℚ)⌋ : ℤ) = 0 := by norm_num
  rw [h1, Int.floor_int_add, h3, add_zero]

/-! ### Owner's policy premium (variant A and variant B share this code) -/

inductive OwnerPremiumChoice
  | mid
  | low
  | high
deriving DecidableEq

inductive PremiumMode
  | above_1m
  | table
deriving DecidableEq

/-- One row of the owner's policy premium chart (`OwnerPolicyRow`).  All
entries of the source chart are whole-dollar integers. -/
structure OwnerPolicyRow where
  lo : ℤ
  hi : ℤ
  min : ℤ
  max : ℤ
deriving DecidableEq

/-- Result record of `calcOwnersPolicyPremium`. -/
structure OwnerPremiumResult where
  min : ℚ
  max : ℚ
  chosen : ℚ
  mode : PremiumMode
deriving DecidableEq

/-- The parsed `OWNER_POLICY_RANGE_CSV` chart (`OWNER_POLICY_TABLE`),
written as the list literal the CSV parse produces. -/
def OWNER_POLICY_TABLE : List OwnerPolicyRow := [
  OwnerPolicyRow.mk 0 50000 209 220,
  OwnerPolicyRow.mk 50001 60000 225 263,
  OwnerPolicyRow.mk 60001 70000 268 306,
  OwnerPolicyRow.mk 70001 80000 311 349,
  OwnerPolicyRow.mk 80001 90000 353 392,
  OwnerPolicyRow.mk 90001 100000 396 435,
  OwnerPolicyRow.mk 100001 110000 438 462,
  OwnerPolicyRow.mk 110001 120000 465 490,
  OwnerPolicyRow.mk 120001 130000 493 517,
  OwnerPolicyRow.mk 130001 140000 520 545,
  OwnerPolicyRow.mk 140001 150000 548 572,
  OwnerPolicyRow.mk 150001 160000 575 600,
  OwnerPolicyRow.mk 160001 170000 603 627,
  OwnerPolicyRow.mk 170001 180000 630 655,
  OwnerPolicyRow.mk 180001 190000 658 682,
  OwnerPolicyRow.mk 190001 200000 685 710,
  OwnerPolicyRow.mk 200001 210000 713 737,
  OwnerPolicyRow.mk 210001 220000 740 765,
  OwnerPolicyRow.mk 220001 230000 768 792,
  OwnerPolicyRow.mk 230001 240000 795 820,
  OwnerPolicyRow.mk 240001 250000 823 847,
  OwnerPolicyRow.mk 250001 260000 850 875,
  OwnerPolicyRow.mk 260001 270000 878 902,
  OwnerPolicyRow.mk 270001 280000 905 930,
  OwnerPolicyRow.mk 280001 290000 933 957,
  OwnerPolicyRow.mk 290001 300000 960 985,
  OwnerPolicyRow.mk 300001 310000 988 1012,
  OwnerPolicyRow.mk 310001 320000 1015 1040,
  OwnerPolicyRow.mk 320001 330000 1043 1067,
  OwnerPolicyRow.mk 330001 340000 1070 1095,
  OwnerPolicyRow.mk 340001 350000 1098 1122,
  OwnerPolicyRow.mk 350001 360000 1125 1147,
  OwnerPolicyRow.mk 360001 370000 1150 1172,
  OwnerPolicyRow.mk 370001 380000 1174 1197,
  OwnerPolicyRow.mk 380001 390000 1199 1221,
  OwnerPolicyRow.mk 390001 400000 1224 1246,
  OwnerPolicyRow.mk 400001 410000 1249 1271,
  OwnerPolicyRow.mk 410001 420000 1273 1296,
  OwnerPolicyRow.mk 420001 430000 1298 1320,
  OwnerPolicyRow.mk 430001 440000 1323 1345,
  OwnerPolicyRow.mk 440001 450000 1348 1370,
  OwnerPolicyRow.mk 450001 460000 1372 1395,
  OwnerPolicyRow.mk 460001 470000 1397 1419,
  OwnerPolicyRow.mk 470001 480000 1422 1444,
  OwnerPolicyRow.mk 480001 490000 1447 1469,
  OwnerPolicyRow.mk 490001 500000 1471 1494,
  OwnerPolicyRow.mk 500001 510000 1496 1518,
  OwnerPolicyRow.mk 510001 520000 1521 1543,
  OwnerPolicyRow.mk 520001 530000 1546 1568,
  OwnerPolicyRow.mk 530001 540000 1570 1593,
  OwnerPolicyRow.mk 540001 550000 1595 1617,
  OwnerPolicyRow.mk 550001 560000 1620 1642,
  OwnerPolicyRow.mk 560001 570000 1645 1667,
  OwnerPolicyRow.mk 570001 580000 1669 1692,
  OwnerPolicyRow.mk 580001 590000 1694 1716,
  OwnerPolicyRow.mk 590001 600000 1719 1741,
  OwnerPolicyRow.mk 600001 610000 1743 1762,
  OwnerPolicyRow.mk 610001 620000 1764 1783,
  OwnerPolicyRow.mk 620001 630000 1785 1804,
  OwnerPolicyRow.mk 630001 640000 1806 1825,
  OwnerPolicyRow.mk 640001 650000 1827 1846,
  OwnerPolicyRow.mk 650001 660000 1848 1868,
  OwnerPolicyRow.mk 660001 670000 1869 1894,
  OwnerPolicyRow.mk 670001 680000 1890 1919,
  OwnerPolicyRow.mk 680001 690000 1911 1944,
  OwnerPolicyRow.mk 690001 700000 1931 1969,
  OwnerPolicyRow.mk 700001 710000 1952 1995,
  OwnerPolicyRow.mk 710001 720000 1973 2020,
  OwnerPolicyRow.mk 720001 730000 1994 2045,
  OwnerPolicyRow.mk 730001 740000 2015 2071,
  OwnerPolicyRow.mk 740001 750000 2036 2096,
  OwnerPolicyRow.mk 750001 760000 2057 2121,
  OwnerPolicyRow.mk 760001 770000 2078 2147,
  OwnerPolicyRow.mk 770001 780000 2099 2172,
  OwnerPolicyRow.mk 780001 790000 2120 2197,
  OwnerPolicyRow.mk 790001 800000 2140 2222,
  OwnerPolicyRow.mk 800001 810000 2161 2248,
  OwnerPolicyRow.mk 810001 820000 2182 2273,
  OwnerPolicyRow.mk 820001 830000 2203 2298,
  OwnerPolicyRow.mk 830001 840000 2224 2324,
  OwnerPolicyRow.mk 840001 850000 2245 2349,
  OwnerPolicyRow.mk 850001 860000 2266 2374,
  OwnerPolicyRow.mk 860001 870000 2287 2400,
  OwnerPolicyRow.mk 870001 880000 2308 2425,
  OwnerPolicyRow.mk 880001 890000 2329 2450,
  OwnerPolicyRow.mk 890001 900000 2349 2475,
  OwnerPolicyRow.mk 900001 910000 2370 2501,
  OwnerPolicyRow.mk 910001 920000 2391 2526,
  OwnerPolicyRow.mk 920001 930000 2412 2551,
  OwnerPolicyRow.mk 930001 940000 2433 2577,
  OwnerPolicyRow.mk 940001 950000 2454 2602,
  OwnerPolicyRow.mk 950001 960000 2475 2627,
  OwnerPolicyRow.mk 960001 970000 2496 2653,
  OwnerPolicyRow.mk 970001 980000 2517 2678,
  OwnerPolicyRow.mk 980001 990000 2538 2703,
  OwnerPolicyRow.mk 990001 1000000 2558 2728]

/-- Source `calcOwnersPolicyPremium`.  The `|| 0` NaN-guard on
`liabilityAmount` is subsumed by the `max _ 0` clamp. -/
def calcOwnersPolicyPremium (liabilityAmount : ℚ)
    (choice : OwnerPremiumChoice := .mid) : OwnerPremiumResult :=
  let amt := max liabilityAmount 0
  -- Above $1,000,000: $2,728 + $22 per $10,000 (rounded up) over $1,000,000
  if 1000000 < amt then
    let over := amt - 1000000
    let tenThousands : ℤ := ⌈over / 10000⌉
    let premium : ℚ := 2728 + 22 * (tenThousands : ℚ)
    ⟨premium, premium, premium, .above_1m⟩
  else
    let row := (OWNER_POLICY_TABLE.find? fun r =>
      decide ((r.lo : ℚ) ≤ amt ∧ amt ≤ (r.hi : ℚ))).getD
      (OWNER_POLICY_TABLE.head (by unfold OWNER_POLICY_TABLE; exact List.cons_ne_nil _ _))
    let mid := round2 (((row.min : ℚ) + (row.max : ℚ)) / 2)
    let chosen : ℚ :=
      if choice = .low then (row.min : ℚ) else if choice = .high then (row.max : ℚ) else mid
    ⟨(row.min : ℚ), (row.max : ℚ), round2 chosen, .table⟩

/-! ### IHT seller title fees -/

/-- Labels of the title-fee line items, standing in for the display
strings of the source. -/
inductive FeeLabel
  | ownersPolicy
  | settlement
  | titleProcessing
  | closingProcessing
  | cpl
  | tieff
  | deedRecording
  | simplifile
  | transferSDF
deriving DecidableEq

structure TitleFeeItem where
  label : FeeLabel
  amount : ℚ
deriving DecidableEq

structure TitleFeeResult where
  items : List TitleFeeItem
  total : ℚ
deriving DecidableEq

inductive TransactionType
  | with_loan
  | cash
deriving DecidableEq

/-- Variant A's `countyType : "marion" | "other"`. -/
inductive CountyType
  | marion
  | other
deriving DecidableEq

/-- Variant A's `TitleFeeSettings`. -/
structure TitleFeeSettingsA where
  transactionType : TransactionType
  countyType : CountyType
  useSimplifile : Bool
  ownerPolicyPremium : ℚ
  includeSettlementFee : Bool
  includeCPL : Bool
  includeTIEFF : Bool
  includeDeedRecording : Bool
  includeTransferFeeSDF : Bool
deriving DecidableEq

/-- Variant A's `calcIhtSellerTitleFees` (inline fee constants). The
sequential `items.push` calls become one list in the same order; the
`(x.amount || 0)` NaN-guard in the total is dropped (amounts are exact
rationals). -/
def calcIhtSellerTitleFeesA (s : TitleFeeSettingsA) : TitleFeeResult :=
  let items : List TitleFeeItem :=
    (if 0 < s.ownerPolicyPremium then [⟨.ownersPolicy, s.ownerPolicyPremium⟩] else []) ++
    (if s.includeSettlementFee then
      [⟨.settlement, if s.transactionType = .with_loan then 390 else 290⟩] else []) ++
    [⟨.titleProcessing, 175⟩, ⟨.closingProcessing, 150⟩] ++
    (if s.includeCPL then [⟨.cpl, 25⟩] else []) ++
    (if s.includeTIEFF then [⟨.tieff, 5⟩] else []) ++
    (if s.includeDeedRecording then
      ⟨.deedRecording, if s.countyType = .marion then 35 else 25⟩ ::
        (if s.useSimplifile then [⟨.simplifile, 4.25⟩] else [])
      else []) ++
    (if s.includeTransferFeeSDF then [⟨.transferSDF, 30⟩] else [])
  ⟨items.map fun x => ⟨x.label, round2 x.amount⟩,
   round2 (items.foldl (fun sum x => sum + x.amount) 0)⟩

/-- Variant B's `FeeSchedule`. -/
structure FeeSchedule where
  settlementWithLoanSeller : ℚ
  settlementCashSeller : ℚ
  titleProcessingSeller : ℚ
  closingProcessingSeller : ℚ
  cplSeller : ℚ
  tieffSeller : ℚ
  deedRecordingMarion : ℚ
  deedRecordingOther : ℚ
  simplifilePerDoc : ℚ
  transferPlusSDF : ℚ
deriving DecidableEq

def STANDARD_SCHEDULE : FeeSchedule :=
  { settlementWithLoanSeller := 390
    settlementCashSeller := 290
    titleProcessingSeller := 175
    closingProcessingSeller := 150
    cplSeller := 25
    tieffSeller := 5
    deedRecordingMarion := 35
    deedRecordingOther := 25
    simplifilePerDoc := 4.25
    transferPlusSDF := 30 }

def VALPO_SCHEDULE : FeeSchedule :=
  { settlementWithLoanSeller := 390
    settlementCashSeller := 290
    titleProcessingSeller := 225
    closingProcessingSeller := 175
    cplSeller := 25
    tieffSeller := 5
    deedRecordingMarion := 35
    deedRecordingOther := 25
    simplifilePerDoc := 4.25
    transferPlusSDF := 30 }

/-- ASCII model of JS `String.prototype.toLowerCase` for one character
(the county names handled by the engine are ASCII). -/
def charToLower (c : Char) : Char :=
  if 'A' ≤ c ∧ c ≤ 'Z' then Char.ofNat (c.toNat + 32) else c

/-- Model of JS `String.prototype.toLowerCase`. -/
def jsToLower (s : String) : String := String.mk (s.data.map charToLower)

/-- Model of JS `String.prototype.trim`. -/
def jsTrim (s : String) : String :=
  String.mk (((s.data.dropWhile fun c => c.isWhitespace).reverse.dropWhile
    fun c => c.isWhitespace).reverse)

/-- Variant B's `VALPO_COUNTIES` (lower-cased override set; the source
`Set` is modeled by the list it is built from, membership by `contains`). -/
def VALPO_COUNTIES : List String :=
  ["Lake", "Porter", "LaPorte", "St. Joseph", "Elkhart", "Kosciusko", "Marshall",
   "Fulton", "Pulaski", "Starke", "Jasper", "Newton", "White", "Cass"].map
    fun x => jsToLower x

/-- Variant B's `getFeeScheduleForCounty`.  The `county || ""` null-guard
is dropped (strings are total in the model). -/
def getFeeScheduleForCounty (county : String) : FeeSchedule :=
  let key := jsToLower (jsTrim county)
  if VALPO_COUNTIES.contains key then VALPO_SCHEDULE else STANDARD_SCHEDULE

/-- Variant B's `TitleFeeSettings` (free-form county name). -/
structure TitleFeeSettingsB where
  transactionType : TransactionType
  county : String
  useSimplifile : Bool
  ownerPolicyPremium : ℚ
  includeSettlementFee : Bool
  includeCPL : Bool
  includeTIEFF : Bool
  includeDeedRecording : Bool
  includeTransferFeeSDF : Bool
deriving DecidableEq

/-- Variant B's `calcIhtSellerTitleFees`: fee constants come from the
resolved county schedule and the settlement constant is halved
(`round2(fullSettlement / 2)`). -/
def calcIhtSellerTitleFeesB (s : TitleFeeSettingsB) : TitleFeeResult :=
  let schedule := getFeeScheduleForCounty s.county
  let items : List TitleFeeItem :=
    (if 0 < s.ownerPolicyPremium then [⟨.ownersPolicy, s.ownerPolicyPremium⟩] else []) ++
    (if s.includeSettlementFee then
      [⟨.settlement, round2 ((if s.transactionType = .with_loan then
        schedule.settlementWithLoanSeller else schedule.settlementCashSeller) / 2)⟩]
     else []) ++
    [⟨.titleProcessing, schedule.titleProcessingSeller⟩,
     ⟨.closingProcessing, schedule.closingProcessingSeller⟩] ++
    (if s.includeCPL then [⟨.cpl, schedule.cplSeller⟩] else []) ++
    (if s.includeTIEFF then [⟨.tieff, schedule.tieffSeller⟩] else []) ++
    (if s.includeDeedRecording then
      ⟨.deedRecording, if jsToLower (jsTrim s.county) = "marion" then
        schedule.deedRecordingMarion else schedule.deedRecordingOther⟩ ::
        (if s.useSimplifile then [⟨.simplifile, schedule.simplifilePerDoc⟩] else [])
      else []) ++
    (if s.includeTransferFeeSDF then [⟨.transferSDF, schedule.transferPlusSDF⟩] else [])
  ⟨items.map fun x => ⟨x.label, round2 x.amount⟩,
   round2 (items.foldl (fun sum x => sum + x.amount) 0)⟩

/-! ### Indiana arrears tax proration -/

inductive ProrateThrough
  | day_before
  | closing_date
deriving DecidableEq

/-- `TaxSettings` (identical in both variants). -/
structure TaxSettings where
  priorYearTax : ℚ
  springPaid : Bool
  springPaidAmount : ℚ
  fallPaid : Bool
  fallPaidAmount : ℚ
  prorateThrough : ProrateThrough
  force365 : Bool
deriving DecidableEq

/-- `TaxBreakdown` (identical in both variants); `prorationEnd` is the
day number rendered by the source as the `prorationEndYMD` string. -/
structure TaxBreakdown where
  prorationEnd : ℤ
  daysInYear : ℤ
  dailyRate : ℚ
  daysAccrued : ℤ
  accruedThisYear : ℚ
  paidTotal : ℚ
  unpaidPriorYear : ℚ
  totalDebit : ℚ
deriving DecidableEq

/-- Variant A's `calcIndianaTaxProration`.  The `priorYearTax || 0` and
`xPaidAmount || 0` NaN-guards are subsumed by the `max _ 0` clamps. -/
def calcIndianaTaxProration (closingUTC : ℤ) (tax : TaxSettings) : TaxBreakdown :=
  let year := yearOfDay closingUTC
  let jan1 := jan1Day year
  let prorationEnd :=
    if tax.prorateThrough = .day_before then addDaysUTC closingUTC (-1) else closingUTC
  let daysInYear : ℤ := if tax.force365 then 365 else if isLeapYear year then 366 else 365
  let TY := max tax.priorYearTax 0
  let dailyRate := TY / (daysInYear : ℚ)
  let daysAccrued :=
    if prorationEnd < jan1 then 0 else daysBetweenInclusiveUTC jan1 prorationEnd
  let accruedThisYear := dailyRate * (daysAccrued : ℚ)
  let paidTotal := (if tax.springPaid then max tax.springPaidAmount 0 else 0) +
    (if tax.fallPaid then max tax.fallPaidAmount 0 else 0)
  let unpaidPriorYear := max (TY - paidTotal) 0
  let totalDebit := unpaidPriorYear + accruedThisYear
  ⟨prorationEnd, daysInYear, dailyRate, daysAccrued, accruedThisYear,
   paidTotal, unpaidPriorYear, totalDebit⟩

/-- Variant B's `calcIndianaTaxProration` (the `unnamed/part_000` copy;
its source text is identical to variant A's). -/
def calcIndianaTaxProrationB (closingUTC : ℤ) (tax : TaxSettings) : TaxBreakdown :=
  let year := yearOfDay closingUTC
  let jan1 := jan1Day year
  let prorationEnd :=
    if tax.prorateThrough = .day_before then addDaysUTC closingUTC (-1) else closingUTC
  let daysInYear : ℤ := if tax.force365 then 365 else if isLeapYear year then 366 else 365
  let TY := max tax.priorYearTax 0
  let dailyRate := TY / (daysInYear : ℚ)
  let daysAccrued :=
    if prorationEnd < jan1 then 0 else daysBetweenInclusiveUTC jan1 prorationEnd
  let accruedThisYear := dailyRate * (daysAccrued : ℚ)
  let paidTotal := (if tax.springPaid then max tax.springPaidAmount 0 else 0) +
    (if tax.fallPaid then max tax.fallPaidAmount 0 else 0)
  let unpaidPriorYear := max (TY - paidTotal) 0
  let totalDebit := unpaidPriorYear + accruedThisYear
  ⟨prorationEnd, daysInYear, dailyRate, daysAccrued, accruedThisYear,
   paidTotal, unpaidPriorYear, totalDebit⟩

/-- The tax-proration breakdown exactly as the specification words it:
days-in-year from the force-365 flag and the leap rule, daily rate from
the clamped prior-year tax, cutoff = closing date minus one day under the
day-before policy, inclusive day count from January 1 (0 before January 1),
paid total summing the amounts of installments whose paid flag is set,
unpaid prior year `max(priorYearTax - paidTotal, 0)`, and
`totalDebit = unpaidPriorYear + accruedThisYear`. -/
def taxProrationSpec (closing : ℤ) (t : TaxSettings) : TaxBreakdown :=
  let year := yearOfDay closing
  let jan1 := jan1Day year
  let cutoff := if t.prorateThrough = .day_before then closing - 1 else closing
  let daysInYear : ℤ := if t.force365 then 365 else if isLeapYear year then 366 else 365
  let dailyRate := max t.priorYearTax 0 / (daysInYear : ℚ)
  let daysAccrued := if cutoff < jan1 then 0 else cutoff - jan1 + 1
  let accruedThisYear := dailyRate * (daysAccrued : ℚ)
  let paidTotal := (if t.springPaid then t.springPaidAmount else 0) +
    (if t.fallPaid then t.fallPaidAmount else 0)
  let unpaidPriorYear := max (t.priorYearTax - paidTotal) 0
  let totalDebit := unpaidPriorYear + accruedThisYear
  ⟨cutoff, daysInYear, dailyRate, daysAccrued, accruedThisYear,
   paidTotal, unpaidPriorYear, totalDebit⟩

/-! ### Net sheet aggregation -/

/-- Variant A's `estimatedNet` memo: one combined commission amount. -/
def estimatedNetA (salePrice commissionAmount mortgagePayoff sellerConcessions
    otherCostsTotal sellerTitleFeesTotal taxDebitRounded : ℚ) : ℚ :=
  round2 (salePrice - commissionAmount - mortgagePayoff - sellerConcessions -
    otherCostsTotal - sellerTitleFeesTotal - taxDebitRounded)

/-- Variant B's `estimatedNet` memo: split listing / buyer commissions;
the ad-hoc cost total is the fold the `otherCostsTotal` memo computes. -/
def estimatedNetB (salePrice listingCommission buyersCommission mortgagePayoff
    sellerConcessions : ℚ) (otherCosts : List ℚ)
    (sellerTitleFeesTotal taxDebitRounded : ℚ) : ℚ :=
  let otherCostsTotal := otherCosts.foldl (fun sum c => sum + c) 0
  round2 (salePrice - listingCommission - buyersCommission - mortgagePayoff -
    sellerConcessions - otherCostsTotal - sellerTitleFeesTotal - taxDebitRounded)

/-! ### Money/number normalizer -/

/-- Value denoted by a list of decimal digits. -/
def digitsToNat (ds : List Char) : ℕ :=
  ds.foldl (fun n c => 10 * n + (c.toNat - 48)) 0

/-- Exponent part of a JS decimal literal: an optional sign then at
least one digit, consuming the whole input. -/
def parseExpDigits (cs : List Char) : Option ℤ :=
  let sgn : ℤ := match cs with
    | '-' :: _ => -1
    | _ => 1
  let rest : List Char := match cs with
    | '+' :: r => r
    | '-' :: r => r
    | r => r
  let p : List Char × List Char := rest.span fun c => c.isDigit
  if p.1.isEmpty ∨ ¬ p.2.isEmpty then none else some (sgn * (digitsToNat p.1 : ℤ))

/-- Unsigned ECMA `StrUnsignedDecimalLiteral` (digits with optional
fraction and optional exponent), consuming the whole input; `none` is
NaN. -/
def parseStrUnsignedDecimal (cs : List Char) : Option ℚ :=
  let p := cs.span fun c => c.isDigit
  let ints := p.1
  match p.2 with
  | [] => if ints.isEmpty then none else some (digitsToNat ints : ℚ)
  | '.' :: rest2 =>
    let q := rest2.span fun c => c.isDigit
    let fracs := q.1
    if ints.isEmpty ∧ fracs.isEmpty then none
    else
      let mant : ℚ := (digitsToNat ints : ℚ) + (digitsToNat fracs : ℚ) / ((10 : ℚ) ^ fracs.length)
      match q.2 with
      | [] => some mant
      | e :: rest4 =>
        if e = 'e' ∨ e = 'E' then (parseExpDigits rest4).map fun k => mant * (10 : ℚ) ^ k
        else none
  | e :: rest2 =>
    if (e = 'e' ∨ e = 'E') ∧ ¬ ints.isEmpty then
      (parseExpDigits rest2).map fun k => (digitsToNat ints : ℚ) * (10 : ℚ) ^ k
    else none

/-- Signed ECMA `StrDecimalLiteral`, including the `Infinity` literal
(whose value is not finite, hence `none` like NaN: `parseNumber` maps
both to `0` through the `Number.isFinite` test). -/
def parseStrSignedDecimal (cs : List Char) : Option ℚ :=
  let sgn : ℚ := match cs with
    | '-' :: _ => -1
    | _ => 1
  let rest := match cs with
    | '+' :: r => r
    | '-' :: r => r
    | r => r
  if rest = ['I', 'n', 'f', 'i', 'n', 'i', 't', 'y'] then none
  else (parseStrUnsignedDecimal rest).map fun q => sgn * q

def isHexDigitChar (c : Char) : Bool :=
  c.isDigit ∨ ('a' ≤ c ∧ c ≤ 'f') ∨ ('A' ≤ c ∧ c ≤ 'F')

def isOctDigitChar (c : Char) : Bool := '0' ≤ c ∧ c ≤ '7'

def isBinDigitChar (c : Char) : Bool := c = '0' ∨ c = '1'

/-- Numeric value of a hexadecimal digit. -/
def hexDigitVal (c : Char) : ℕ :=
  if c.isDigit then c.toNat - 48
  else if 'a' ≤ c ∧ c ≤ 'f' then c.toNat - 87
  else c.toNat - 55

/-- Unsigned radix literal body (after `0x`/`0o`/`0b`), consuming the
whole input. -/
def parseRadixDigits (radix : ℕ) (isDigitR : Char → Bool) (cs : List Char) : Option ℚ :=
  let p : List Char × List Char := cs.span isDigitR
  if p.1.isEmpty ∨ ¬ p.2.isEmpty then none
  else some ((p.1.foldl (fun n c => radix * n + hexDigitVal c) 0 : ℕ) : ℚ)

/-- Model of the JS `Number(string)` conversion applied by `parseNumber`
to the cleaned string: the empty string is `0`; `0x`/`0o`/`0b` radix
literals; otherwise a signed decimal literal or `Infinity`.  `none`
stands for the non-finite outcomes (NaN and the infinities).  ECMA
rounds the mathematical value to binary64; the exact rational value is
kept instead. -/
def jsStringToNumber (s : String) : Option ℚ :=
  match s.data with
  | [] => some 0
  | '0' :: x :: rest =>
    if x = 'x' ∨ x = 'X' then parseRadixDigits 16 isHexDigitChar rest
    else if x = 'o' ∨ x = 'O' then parseRadixDigits 8 isOctDigitChar rest
    else if x = 'b' ∨ x = 'B' then parseRadixDigits 2 isBinDigitChar rest
    else parseStrSignedDecimal ('0' :: x :: rest)
  | cs => parseStrSignedDecimal cs

/-- The `value.replace(/[$,\s]/g, "")` strip in `parseNumber` (ASCII
whitespace model of `\s`). -/
def stripMoneyChars (s : String) : String :=
  String.mk (s.data.filter fun c => ¬ (c = '$' ∨ c = ',' ∨ c.isWhitespace))

/-- Source `parseNumber`: strip `$`, commas and whitespace, convert with
`Number`, and return the value when finite, `0` otherwise. -/
def parseNumber (value : String) : ℚ :=
  let cleaned := stripMoneyChars value
  match jsStringToNumber cleaned with
  | some n => n
  | none => 0

/-! ### Helper lemmas on the premium chart -/

/-- Every row's range is ordered and its premium band is ordered. -/
def rowsWellFormed (l : List OwnerPolicyRow) : Bool :=
  l.all fun r => decide (r.lo ≤ r.hi ∧ r.min ≤ r.max)

/-- Each row's range starts one dollar after the previous row's range
ends. -/
def rowsContiguous : List OwnerPolicyRow → Bool
  | [] => true
  | [_] => true
  | r :: s :: l => (s.lo == r.hi + 1) && rowsContiguous (s :: l)

theorem rowsContiguous_tail {r : OwnerPolicyRow} {l : List OwnerPolicyRow}
    (h : rowsContiguous (r :: l) = true) : rowsContiguous l = true := by
  cases l with
  | nil => rfl
  | cons s t => exact (Bool.and_eq_true_iff.mp h).2

theorem lo_gt_of_contiguous {r : OwnerPolicyRow} {l : List OwnerPolicyRow}
    (hc : rowsContiguous (r :: l) = true) (hw : ∀ x ∈ r :: l, x.lo ≤ x.hi) :
    ∀ s ∈ l, r.hi < s.lo := by
  induction l generalizing r with
  | nil => intro s hs; cases hs
  | cons s0 t ih =>
    intro s hs
    have h1 : s0.lo = r.hi + 1 := beq_iff_eq.mp (Bool.and_eq_true_iff.mp hc).1
    cases hs with
    | head => omega
    | tail _ hmem =>
      have h2 : s0.hi < s.lo := by
        refine ih ?_ ?_ s hmem
        · exact (Bool.and_eq_true_iff.mp hc).2
        · intro x hx; exact hw x (List.mem_cons_of_mem r hx)
      have h3 : s0.lo ≤ s0.hi := hw s0 (List.mem_cons_of_mem r (List.mem_cons_self s0 t))
      omega

theorem find?_eq_of_contiguous (l : List OwnerPolicyRow)
    (hc : rowsContiguous l = true) (hw : ∀ x ∈ l, x.lo ≤ x.hi)
    (r : OwnerPolicyRow) (hr : r ∈ l) (a : ℚ)
    (hlo : (r.lo : ℚ) ≤ a) (hhi : a ≤ (r.hi : ℚ)) :
    (l.find? fun s => decide ((s.lo : ℚ) ≤ a ∧ a ≤ (s.hi : ℚ))) = some r := by
  induction l with
  | nil => cases hr
  | cons s0 t ih =>
    cases hr with
    | head =>
      exact List.find?_cons_of_pos _ (by simp only [decide_eq_true_eq]; exact ⟨hlo, hhi⟩)
    | tail _ hmem =>
      have hgt : s0.hi < r.lo := lo_gt_of_contiguous hc hw r hmem
      rw [List.find?_cons_of_neg]
      · exact ih (rowsContiguous_tail hc)
          (fun x hx => hw x (List.mem_cons_of_mem s0 hx)) hmem
      · simp only [decide_eq_true_eq, not_and, not_le]
        intro _
        have : (s0.hi : ℚ) < (r.lo : ℚ) := by exact_mod_cast hgt
        linarith

theorem countP_eq_one_of_contiguous (r : OwnerPolicyRow) (l : List OwnerPolicyRow)
    (hc : rowsContiguous (r :: l) = true) (hw : ∀ x ∈ r :: l, x.lo ≤ x.hi)
    (a : ℤ) (hlo : r.lo ≤ a) (hhi : ∃ s ∈ r :: l, a ≤ s.hi) :
    ((r :: l).countP fun x => decide (x.lo ≤ a ∧ a ≤ x.hi)) = 1 := by
  induction l generalizing r with
  | nil =>
    obtain ⟨s, hs, hsa⟩ := hhi
    have hsr : s = r := by cases hs with
      | head => rfl
      | tail _ h => cases h
    subst hsr
    simp [List.countP_cons, hlo, hsa]
  | cons s0 t ih =>
    by_cases hcase : a ≤ r.hi
    · have hzero : ((s0 :: t).countP fun x => decide (x.lo ≤ a ∧ a ≤ x.hi)) = 0 := by
        refine List.countP_eq_zero.mpr ?_
        intro x hx
        have := lo_gt_of_contiguous hc hw x hx
        simp only [decide_eq_true_eq, not_and, not_le]
        intro _
        omega
      rw [List.countP_cons, hzero]
      simp [hlo, hcase]
    · have hne : ¬ (r.lo ≤ a ∧ a ≤ r.hi) := fun h => hcase h.2
      have h1 : s0.lo = r.hi + 1 := beq_iff_eq.mp (Bool.and_eq_true_iff.mp hc).1
      have hlo2 : s0.lo ≤ a := by omega
      have hhi2 : ∃ s ∈ s0 :: t, a ≤ s.hi := by
        obtain ⟨s, hs, hsa⟩ := hhi
        cases hs with
        | head => exact absurd hsa hcase
        | tail _ h => exact ⟨s, h, hsa⟩
      rw [List.countP_cons]
      simp only [decide_eq_true_eq, hne, if_false, add_zero]
      exact ih s0 (Bool.and_eq_true_iff.mp hc).2
        (fun x hx => hw x (List.mem_cons_of_mem r hx)) hlo2 hhi2

theorem table_contiguous : rowsContiguous OWNER_POLICY_TABLE = true := by decide

theorem table_wellFormed : rowsWellFormed OWNER_POLICY_TABLE = true := by decide

theorem table_bounds :
    (OWNER_POLICY_TABLE.all fun r => decide (0 ≤ r.lo ∧ r.hi ≤ 1000000)) = true := by decide

theorem table_lo_le_hi : ∀ x ∈ OWNER_POLICY_TABLE, x.lo ≤ x.hi := by
  intro x hx
  have h := List.all_eq_true.mp table_wellFormed x hx
  exact (decide_eq_true_eq.mp h).1

theorem table_band_le : ∀ x ∈ OWNER_POLICY_TABLE, x.min ≤ x.max := by
  intro x hx
  have h := List.all_eq_true.mp table_wellFormed x hx
  exact (decide_eq_true_eq.mp h).2

theorem table_lo_nonneg : ∀ x ∈ OWNER_POLICY_TABLE, 0 ≤ x.lo := by
  intro x hx
  have h := List.all_eq_true.mp table_bounds x hx
  exact (decide_eq_true_eq.mp h).1

theorem table_hi_le : ∀ x ∈ OWNER_POLICY_TABLE, x.hi ≤ 1000000 := by
  intro x hx
  have h := List.all_eq_true.mp table_bounds x hx
  exact (decide_eq_true_eq.mp h).2

/-- Characterization of the overflow branch of `calcOwnersPolicyPremium`. -/
theorem calcOwnersPolicyPremium_above (a : ℚ) (c : OwnerPremiumChoice)
    (h : 1000000 < a) :
    calcOwnersPolicyPremium a c =
      ⟨2728 + 22 * ((⌈(a - 1000000) / 10000⌉ : ℤ) : ℚ),
       2728 + 22 * ((⌈(a - 1000000) / 10000⌉ : ℤ) : ℚ),
       2728 + 22 * ((⌈(a - 1000000) / 10000⌉ : ℤ) : ℚ), .above_1m⟩ := by
  have hmax : max a 0 = a := max_eq_left (by linarith)
  simp only [calcOwnersPolicyPremium, hmax]
  rw [if_pos h]

/-- Characterization of the table branch of `calcOwnersPolicyPremium`:
for an amount inside a row of the chart, the lookup uses exactly that
row. -/
theorem calcOwnersPolicyPremium_table (a : ℚ) (c : OwnerPremiumChoice)
    (r : OwnerPolicyRow) (hr : r ∈ OWNER_POLICY_TABLE)
    (hlo : (r.lo : ℚ) ≤ a) (hhi : a ≤ (r.hi : ℚ)) :
    calcOwnersPolicyPremium a c =
      ⟨(r.min : ℚ), (r.max : ℚ),
       round2 (if c = .low then (r.min : ℚ) else if c = .high then (r.max : ℚ)
         else round2 (((r.min : ℚ) + (r.max : ℚ)) / 2)), .table⟩ := by
  have h0 : (0 : ℚ) ≤ a := by
    have h1 := table_lo_nonneg r hr
    have h2 : ((0 : ℤ) : ℚ) ≤ (r.lo : ℚ) := Int.cast_le.mpr h1
    push_cast at h2
    linarith
  have hmax : max a 0 = a := max_eq_left h0
  have hnot : ¬ (1000000 : ℚ) < a := by
    have h1 := table_hi_le r hr
    have h2 : (r.hi : ℚ) ≤ ((1000000 : ℤ) : ℚ) := Int.cast_le.mpr h1
    push_cast at h2
    linarith
  have hfind := find?_eq_of_contiguous OWNER_POLICY_TABLE table_contiguous
    table_lo_le_hi r hr a hlo hhi
  simp only [calcOwnersPolicyPremium, hmax]
  rw [if_neg hnot, hfind]
  rfl

/-! ### Claims about the premium lookup -/

/-- Claim C3: for every liability amount within a tier row of the chart
(hence in `[0, 1000000]`), the lookup's `chosen` is the row's low band
edge for `low`, the high edge for `high`, and the rounded midpoint for
`mid`, while `min`/`max` always equal the row's un-rounded band edges;
in particular `lookup(50000, low).chosen = 209`,
`lookup(50000, high).chosen = 220`, `lookup(50000, mid).chosen = 214.50`. -/
theorem C3_row_lookup :
    (∀ (a : ℚ) (r : OwnerPolicyRow), r ∈ OWNER_POLICY_TABLE →
      0 ≤ a → a ≤ 1000000 → (r.lo : ℚ) ≤ a → a ≤ (r.hi : ℚ) →
      (calcOwnersPolicyPremium a .low).chosen = (r.min : ℚ) ∧
      (calcOwnersPolicyPremium a .high).chosen = (r.max : ℚ) ∧
      (calcOwnersPolicyPremium a .mid).chosen
        = round2 (((r.min : ℚ) + (r.max : ℚ)) / 2) ∧
      (∀ c, (calcOwnersPolicyPremium a c).min = (r.min : ℚ) ∧
        (calcOwnersPolicyPremium a c).max = (r.max : ℚ))) ∧
    (calcOwnersPolicyPremium 50000 .low).chosen = 209 ∧
    (calcOwnersPolicyPremium 50000 .high).chosen = 220 ∧
    (calcOwnersPolicyPremium 50000 .mid).chosen = 214.50 := by
  have main : ∀ (a : ℚ) (r : OwnerPolicyRow), r ∈ OWNER_POLICY_TABLE →
      (r.lo : ℚ) ≤ a → a ≤ (r.hi : ℚ) →
      (calcOwnersPolicyPremium a .low).chosen = (r.min : ℚ) ∧
      (calcOwnersPolicyPremium a .high).chosen = (r.max : ℚ) ∧
      (calcOwnersPolicyPremium a .mid).chosen
        = round2 (((r.min : ℚ) + (r.max : ℚ)) / 2) ∧
      (∀ c, (calcOwnersPolicyPremium a c).min = (r.min : ℚ) ∧
        (calcOwnersPolicyPremium a c).max = (r.max : ℚ)) := by
    intro a r hr hlo hhi
    refine ⟨?_, ?_, ?_, fun c => ?_⟩
    · rw [calcOwnersPolicyPremium_table a .low r hr hlo hhi]
      simp [round2_intCast]
    · rw [calcOwnersPolicyPremium_table a .high r hr hlo hhi]
      simp [round2_intCast]
    · rw [calcOwnersPolicyPremium_table a .mid r hr hlo hhi]
      simp [round2_idem]
    · rw [calcOwnersPolicyPremium_table a c r hr hlo hhi]
      exact ⟨rfl, rfl⟩
  have hmem : OwnerPolicyRow.mk 0 50000 209 220 ∈ OWNER_POLICY_TABLE := by
    unfold OWNER_POLICY_TABLE
    exact List.mem_cons_self _ _
  have h50 := main 50000 (OwnerPolicyRow.mk 0 50000 209 220) hmem
    (by norm_num) (by norm_num)
  refine ⟨fun a r hr _ _ hlo hhi => main a r hr hlo hhi, ?_, ?_, ?_⟩
  · rw [h50.1]; norm_num
  · rw [h50.2.1]; norm_num
  · rw [h50.2.2.1]
    unfold round2
    norm_num

/-- Claim C3 witness: instantiation at amount 37000 in the first row. -/
theorem C3_row_lookup_witness :
    (calcOwnersPolicyPremium 37000 .low).chosen = 209 ∧
    (calcOwnersPolicyPremium 37000 .high).chosen = 220 := by
  have h := C3_row_lookup.1 37000 (OwnerPolicyRow.mk 0 50000 209 220)
    (by unfold OWNER_POLICY_TABLE; exact List.mem_cons_self _ _)
    (by norm_num) (by norm_num) (by norm_num) (by norm_num)
  exact ⟨by rw [h.1]; norm_num, by rw [h.2.1]; norm_num⟩

/-- Claim C4: above the $1,000,000 ceiling the lookup returns
`min = max = chosen = 2728 + 22 * ceil((a - 1000000) / 10000)` for every
choice, each started $10,000 unit adding one full $22 increment; in
particular `lookup(1000001).chosen = 2750`, `lookup(1010000).chosen =
2750`, `lookup(1010001).chosen = 2772`. -/
theorem C4_overflow_formula :
    (∀ (a : ℚ) (c : OwnerPremiumChoice), 1000000 < a →
      (calcOwnersPolicyPremium a c).chosen
        = 2728 + 22 * ((⌈(a - 1000000) / 10000⌉ : ℤ) : ℚ) ∧
      (calcOwnersPolicyPremium a c).min
        = 2728 + 22 * ((⌈(a - 1000000) / 10000⌉ : ℤ) : ℚ) ∧
      (calcOwnersPolicyPremium a c).max
        = 2728 + 22 * ((⌈(a - 1000000) / 10000⌉ : ℤ) : ℚ)) ∧
    (calcOwnersPolicyPremium 1000001).chosen = 2750 ∧
    (calcOwnersPolicyPremium 1010000).chosen = 2750 ∧
    (calcOwnersPolicyPremium 1010001).chosen = 2772 := by
  have main : ∀ (a : ℚ) (c : OwnerPremiumChoice), 1000000 < a →
      (calcOwnersPolicyPremium a c).chosen
        = 2728 + 22 * ((⌈(a - 1000000) / 10000⌉ : ℤ) : ℚ) ∧
      (calcOwnersPolicyPremium a c).min
        = 2728 + 22 * ((⌈(a - 1000000) / 10000⌉ : ℤ) : ℚ) ∧
      (calcOwnersPolicyPremium a c).max
        = 2728 + 22 * ((⌈(a - 1000000) / 10000⌉ : ℤ) : ℚ) := by
    intro a c h
    rw [calcOwnersPolicyPremium_above a c h]
    exact ⟨rfl, rfl, rfl⟩
  have hc1 : (⌈((1000001 : ℚ) - 1000000) / 10000⌉ : ℤ) = 1 := by
    rw [Int.ceil_eq_iff]
    constructor <;> norm_num
  have hc2 : (⌈((1010000 : ℚ) - 1000000) / 10000⌉ : ℤ) = 1 := by
    rw [Int.ceil_eq_iff]
    constructor <;> norm_num
  have hc3 : (⌈((1010001 : ℚ) - 1000000) / 10000⌉ : ℤ) = 2 := by
    rw [Int.ceil_eq_iff]
    constructor <;> norm_num
  refine ⟨main, ?_, ?_, ?_⟩
  · rw [(main 1000001 .mid (by norm_num)).1, hc1]
    norm_num
  · rw [(main 1010000 .mid (by norm_num)).1, hc2]
    norm_num
  · rw [(main 1010001 .mid (by norm_num)).1, hc3]
    norm_num

/-- Claim C4 witness: instantiation at amount 1020000 with choice `low`. -/
theorem C4_overflow_formula_witness :
    (calcOwnersPolicyPremium 1020000 .low).chosen
      = 2728 + 22 * ((⌈((1020000 : ℚ) - 1000000) / 10000⌉ : ℤ) : ℚ) :=
  (C4_overflow_formula.1 1020000 .low (by norm_num)).1

/-- Claim C8: in overflow mode the premium is a non-decreasing step
function of the amount; `lookup(1000001)` and `lookup(1010000)` each
exceed the base ceiling premium 2728 by exactly one $22 increment, and
`lookup(1010001)` exceeds it by two increments (reading the claim's
"differ by one/two increments" against the base premium, as the
spec's Example B values 2750/2750/2772 fix it). -/
theorem C8_overflow_monotone :
    (∀ (a b : ℚ) (c d : OwnerPremiumChoice), 1000000 < a → a ≤ b →
      (calcOwnersPolicyPremium a c).chosen ≤ (calcOwnersPolicyPremium b d).chosen) ∧
    (calcOwnersPolicyPremium 1000001).chosen = 2728 + 1 * 22 ∧
    (calcOwnersPolicyPremium 1010000).chosen = 2728 + 1 * 22 ∧
    (calcOwnersPolicyPremium 1010001).chosen = 2728 + 2 * 22 := by
  constructor
  · intro a b c d ha hab
    have hb : (1000000 : ℚ) < b := lt_of_lt_of_le ha hab
    rw [calcOwnersPolicyPremium_above a c ha, calcOwnersPolicyPremium_above b d hb]
    have hd : (a - 1000000) / 10000 ≤ (b - 1000000) / 10000 := by linarith
    have hceil : (⌈(a - 1000000) / 10000⌉ : ℤ) ≤ ⌈(b - 1000000) / 10000⌉ :=
      Int.ceil_mono hd
    have hc2 : ((⌈(a - 1000000) / 10000⌉ : ℤ) : ℚ) ≤ ((⌈(b - 1000000) / 10000⌉ : ℤ) : ℚ) :=
      Int.cast_le.mpr hceil
    show 2728 + 22 * _ ≤ 2728 + 22 * _
    linarith
  have kc1 : (⌈((1000001 : ℚ) - 1000000) / 10000⌉ : ℤ) = 1 := by
    rw [Int.ceil_eq_iff]
    constructor <;> norm_num
  have kc2 : (⌈((1010000 : ℚ) - 1000000) / 10000⌉ : ℤ) = 1 := by
    rw [Int.ceil_eq_iff]
    constructor <;> norm_num
  have kc3 : (⌈((1010001 : ℚ) - 1000000) / 10000⌉ : ℤ) = 2 := by
    rw [Int.ceil_eq_iff]
    constructor <;> norm_num
  refine ⟨?_, ?_, ?_⟩
  · rw [(calcOwnersPolicyPremium_above 1000001 .mid (by norm_num))]
    show 2728 + 22 * ((⌈((1000001 : ℚ) - 1000000) / 10000⌉ : ℤ) : ℚ) = 2728 + 1 * 22
    rw [kc1]
    norm_num
  · rw [(calcOwnersPolicyPremium_above 1010000 .mid (by norm_num))]
    show 2728 + 22 * ((⌈((1010000 : ℚ) - 1000000) / 10000⌉ : ℤ) : ℚ) = 2728 + 1 * 22
    rw [kc2]
    norm_num
  · rw [(calcOwnersPolicyPremium_above 1010001 .mid (by norm_num))]
    show 2728 + 22 * ((⌈((1010001 : ℚ) - 1000000) / 10000⌉ : ℤ) : ℚ) = 2728 + 2 * 22
    rw [kc3]
    norm_num

/-- Claim C8 witness: monotonicity instantiated across one step. -/
theorem C8_overflow_monotone_witness :
    (calcOwnersPolicyPremium 1000001 .mid).chosen
      ≤ (calcOwnersPolicyPremium 1010001 .mid).chosen :=
  C8_overflow_monotone.1 1000001 1010001 .mid .mid (by norm_num) (by norm_num)

/-- Claim C7 counterexample: the amount 50000.5 lies in `[0, 1000000]`
but no row of the chart contains it — the rows are contiguous over whole
dollars only, so fractional amounts between one row's `hi` and the next
row's `lo` are covered by no row. -/
theorem C7_coverage_cex :
    (0 : ℚ) ≤ 100001 / 2 ∧ (100001 / 2 : ℚ) ≤ 1000000 ∧
    (OWNER_POLICY_TABLE.countP fun r =>
      decide ((r.lo : ℚ) ≤ 100001 / 2 ∧ (100001 / 2 : ℚ) ≤ (r.hi : ℚ))) = 0 := by
  refine ⟨by norm_num, by norm_num, ?_⟩
  have hcongr : ∀ r ∈ OWNER_POLICY_TABLE,
      ((decide ((r.lo : ℚ) ≤ 100001 / 2 ∧ (100001 / 2 : ℚ) ≤ (r.hi : ℚ))) = true
        ↔ (decide (2 * r.lo ≤ 100001 ∧ 100001 ≤ 2 * r.hi)) = true) := by
    intro r _
    simp only [decide_eq_true_eq]
    constructor
    · rintro ⟨h1, h2⟩
      constructor
      · have h : (2 * r.lo : ℚ) ≤ 100001 := by linarith
        exact_mod_cast h
      · have h : (100001 : ℚ) ≤ 2 * r.hi := by linarith
        exact_mod_cast h
    · rintro ⟨h1, h2⟩
      have h1q : ((2 * r.lo : ℤ) : ℚ) ≤ ((100001 : ℤ) : ℚ) := Int.cast_le.mpr h1
      have h2q : ((100001 : ℤ) : ℚ) ≤ ((2 * r.hi : ℤ) : ℚ) := Int.cast_le.mpr h2
      push_cast at h1q h2q
      constructor <;> linarith
  rw [List.countP_congr hcongr]
  decide

/-- Claim C7 amended: every chart row has an ordered range and an
ordered premium band, consecutive rows are contiguous over whole dollars
(each `lo` is the previous `hi` plus one, which also makes the ranges
sorted and pairwise disjoint), and every *integer* amount in
`[0, 1000000]` is contained in exactly one row; fractional amounts
strictly between a row's `hi` and the next row's `lo` (such as 50000.5)
are contained in no row. -/
theorem C7_coverage_amended :
    (∀ x ∈ OWNER_POLICY_TABLE, x.lo ≤ x.hi ∧ x.min ≤ x.max) ∧
    rowsContiguous OWNER_POLICY_TABLE = true ∧
    (∀ a : ℤ, 0 ≤ a → a ≤ 1000000 →
      (OWNER_POLICY_TABLE.countP fun x => decide (x.lo ≤ a ∧ a ≤ x.hi)) = 1) := by
  refine ⟨fun x hx => ⟨table_lo_le_hi x hx, table_band_le x hx⟩, table_contiguous, ?_⟩
  intro a ha0 ha1
  have heq : OWNER_POLICY_TABLE
      = OwnerPolicyRow.mk 0 50000 209 220 :: OWNER_POLICY_TABLE.tail := rfl
  rw [heq]
  refine countP_eq_one_of_contiguous _ _ ?_ ?_ a ?_ ?_
  · rw [← heq]; exact table_contiguous
  · rw [← heq]; exact table_lo_le_hi
  · simpa using ha0
  · refine ⟨OwnerPolicyRow.mk 990001 1000000 2558 2728, ?_, by simpa using ha1⟩
    rw [← heq]
    decide

/-- Claim C7 witness: the integer amount 123456 is covered by exactly
one chart row. -/
theorem C7_coverage_witness :
    (OWNER_POLICY_TABLE.countP fun x =>
      decide (x.lo ≤ (123456 : ℤ) ∧ (123456 : ℤ) ≤ x.hi)) = 1 :=
  C7_coverage_amended.2.2 123456 (by norm_num) (by norm_num)

/-! ### Claims about the tax proration -/

/-- Claim C1: for every closing date and every `TaxSettings` (whose
installment amounts are `MoneyAmount`s, i.e. non-negative), the tax
proration returns exactly the breakdown the specification describes:
the force-365/leap-rule day count, `dailyRate = max(priorYearTax,0) /
daysInYear`, the day-before/closing-date cutoff, the inclusive day count
from January 1 (0 when the cutoff precedes January 1, same-day span 1),
`accruedThisYear = dailyRate * daysAccrued`, `paidTotal` summing the
paid installments' amounts, `unpaidPriorYear = max(priorYearTax -
paidTotal, 0)` and `totalDebit = unpaidPriorYear + accruedThisYear`. -/
theorem C1_tax_formula :
    ∀ (closing : ℤ) (t : TaxSettings),
      0 ≤ t.springPaidAmount → 0 ≤ t.fallPaidAmount →
      calcIndianaTaxProration closing t = taxProrationSpec closing t := by
  intro closing t hs hf
  have hmaxs : max t.springPaidAmount 0 = t.springPaidAmount := max_eq_left hs
  have hmaxf : max t.fallPaidAmount 0 = t.fallPaidAmount := max_eq_left hf
  have hunpaid : max (max t.priorYearTax 0 -
      ((if t.springPaid then t.springPaidAmount else 0) +
       (if t.fallPaid then t.fallPaidAmount else 0))) 0
      = max (t.priorYearTax -
      ((if t.springPaid then t.springPaidAmount else 0) +
       (if t.fallPaid then t.fallPaidAmount else 0))) 0 := by
    have hp0 : (0:ℚ) ≤ (if t.springPaid then t.springPaidAmount else 0) +
        (if t.fallPaid then t.fallPaidAmount else 0) := by
      have h1 : (0:ℚ) ≤ if t.springPaid then t.springPaidAmount else 0 := by
        split
        · exact hs
        · exact le_refl 0
      have h2 : (0:ℚ) ≤ if t.fallPaid then t.fallPaidAmount else 0 := by
        split
        · exact hf
        · exact le_refl 0
      linarith
    rcases le_total t.priorYearTax 0 with h | h
    · rw [max_eq_right h, max_eq_right (by linarith), max_eq_right (by linarith)]
    · rw [max_eq_left h]
  unfold calcIndianaTaxProration taxProrationSpec addDaysUTC daysBetweenInclusiveUTC
  simp only [hmaxs, hmaxf, TaxBreakdown.mk.injEq]
  by_cases h : t.prorateThrough = ProrateThrough.day_before <;>
    by_cases hlt : closing + -1 < jan1Day (yearOfDay closing) <;>
    by_cases hlt2 : closing - 1 < jan1Day (yearOfDay closing) <;>
    by_cases hlt3 : closing < jan1Day (yearOfDay closing) <;>
    simp [h, hlt, hlt2, hlt3, hunpaid]
  all_goals
    first
    | omega
    | (exact Or.inl (by push_cast; ring))
    | (constructor <;>
        (first | omega | (exact Or.inl (by push_cast; ring)) | rfl))

/-- Claim C1 witness: the formula instantiated on a concrete mid-year
closing (2025-06-15, day-before policy, $3,650 prior-year tax, spring
installment paid). -/
theorem C1_tax_formula_witness :
    (0 : ℚ) ≤ 1825 ∧
    calcIndianaTaxProration (daysFromCivil 2025 6 15)
        (TaxSettings.mk 3650 true 1825 false 1825 .day_before true)
      = taxProrationSpec (daysFromCivil 2025 6 15)
        (TaxSettings.mk 3650 true 1825 false 1825 .day_before true) :=
  ⟨by norm_num,
   C1_tax_formula (daysFromCivil 2025 6 15)
     (TaxSettings.mk 3650 true 1825 false 1825 .day_before true)
     (by norm_num) (by norm_num)⟩

/-- Claim C9: flipping any single installment's paid flag to true while
holding the amounts and every other field fixed never increases the
total debit. -/
theorem C9_paid_monotone :
    ∀ (closing : ℤ) (t : TaxSettings),
      (calcIndianaTaxProration closing { t with springPaid := true }).totalDebit
        ≤ (calcIndianaTaxProration closing t).totalDebit ∧
      (calcIndianaTaxProration closing { t with fallPaid := true }).totalDebit
        ≤ (calcIndianaTaxProration closing t).totalDebit := by
  intro closing t
  have hs : (if t.springPaid then max t.springPaidAmount 0 else 0)
      ≤ max t.springPaidAmount 0 := by
    split
    · exact le_refl _
    · exact le_max_right _ _
  have hf : (if t.fallPaid then max t.fallPaidAmount 0 else 0)
      ≤ max t.fallPaidAmount 0 := by
    split
    · exact le_refl _
    · exact le_max_right _ _
  constructor
  · simp only [calcIndianaTaxProration]
    apply add_le_add_right
    apply max_le_max _ (le_refl 0)
    apply sub_le_sub_left
    exact add_le_add_right hs _
  · simp only [calcIndianaTaxProration]
    apply add_le_add_right
    apply max_le_max _ (le_refl 0)
    apply sub_le_sub_left
    exact add_le_add_left hf _

/-- Claim C10: the tax-proration functions of the two engine variants
agree on every closing date and every `TaxSettings`, field for field
(their source texts are identical). -/
theorem C10_variants_agree :
    ∀ (closing : ℤ) (t : TaxSettings),
      calcIndianaTaxProration closing t = calcIndianaTaxProrationB closing t :=
  fun _ _ => rfl

/-! ### Claims about the title fees -/

/-- Claim C5 counterexample: in the county-schedule variant (variant B)
with county Marion, a loan transaction and the settlement toggle on, the
settlement/closing line carries 195 — half of the resolved schedule's
with-loan settlement constant 390 — so the claim that every variant
charges the schedule constant itself fails. -/
theorem C5_settlement_cex :
    ((calcIhtSellerTitleFeesB
        (TitleFeeSettingsB.mk .with_loan "Marion" true 0 true true true true true)).items.find?
      fun i => decide (i.label = FeeLabel.settlement))
      = some ⟨FeeLabel.settlement, 195⟩ ∧
    (getFeeScheduleForCounty "Marion").settlementWithLoanSeller = 390 ∧
    (195 : ℚ) ≠ 390 := by
  have hkey : VALPO_COUNTIES.contains (jsToLower (jsTrim "Marion")) = false := by decide
  refine ⟨?_, ?_, by norm_num⟩
  · simp only [calcIhtSellerTitleFeesB, getFeeScheduleForCounty, hkey]
    norm_num [round2, List.find?, STANDARD_SCHEDULE]
  · simp only [getFeeScheduleForCounty, hkey]
    norm_num [STANDARD_SCHEDULE]

/-- Claim C5 amended: with the settlement toggle on, the base variant's
settlement/closing line carries the schedule's loan-or-cash settlement
constant itself (390 with loan, 290 cash), while the county-schedule
variant carries *half* the resolved schedule's constant, rounded to
cents (195 / 145 under both schedules). -/
theorem C5_settlement_amended :
    ∀ (sA : TitleFeeSettingsA) (sB : TitleFeeSettingsB),
      sA.includeSettlementFee = true → sB.includeSettlementFee = true →
      ((calcIhtSellerTitleFeesA sA).items.find? fun i =>
          decide (i.label = FeeLabel.settlement))
        = some ⟨FeeLabel.settlement,
            if sA.transactionType = .with_loan then 390 else 290⟩ ∧
      ((calcIhtSellerTitleFeesB sB).items.find? fun i =>
          decide (i.label = FeeLabel.settlement))
        = some ⟨FeeLabel.settlement,
            round2 ((if sB.transactionType = .with_loan then
              (getFeeScheduleForCounty sB.county).settlementWithLoanSeller
              else (getFeeScheduleForCounty sB.county).settlementCashSeller) / 2)⟩ := by
  intro sA sB hA hB
  constructor
  · by_cases hp : (0 : ℚ) < sA.ownerPolicyPremium <;>
      by_cases ht : sA.transactionType = TransactionType.with_loan <;>
      simp [calcIhtSellerTitleFeesA, hA, hp, ht, round2, List.find?] <;>
      norm_num
  · by_cases hp : (0 : ℚ) < sB.ownerPolicyPremium <;>
      by_cases ht : sB.transactionType = TransactionType.with_loan <;>
      simp [calcIhtSellerTitleFeesB, hB, hp, ht, round2_idem, List.find?]

/-- Claim C5 witness: the amended statement instantiated on a cash
transaction in variant A and a Lake-county loan transaction in
variant B. -/
theorem C5_settlement_amended_witness :
    ((calcIhtSellerTitleFeesA
        (TitleFeeSettingsA.mk .cash .other false 500 true false false false false)).items.find?
      fun i => decide (i.label = FeeLabel.settlement))
      = some ⟨FeeLabel.settlement, 290⟩ ∧
    ((calcIhtSellerTitleFeesB
        (TitleFeeSettingsB.mk .with_loan "Lake" true 0 true true true false false)).items.find?
      fun i => decide (i.label = FeeLabel.settlement))
      = some ⟨FeeLabel.settlement, 195⟩ := by
  have h := C5_settlement_amended
    (TitleFeeSettingsA.mk .cash .other false 500 true false false false false)
    (TitleFeeSettingsB.mk .with_loan "Lake" true 0 true true true false false)
    rfl rfl
  have hkey : VALPO_COUNTIES.contains (jsToLower (jsTrim "Lake")) = true := by decide
  constructor
  · simpa using h.1
  · rw [h.2]
    simp only [getFeeScheduleForCounty, hkey]
    norm_num [round2, VALPO_SCHEDULE]

/-! ### Claims about the net-sheet aggregation -/

theorem foldl_add_eq_sum (l : List ℚ) (a : ℚ) :
    l.foldl (fun sum c => sum + c) a = a + l.sum := by
  induction l generalizing a with
  | nil => simp
  | cons x t ih => rw [List.foldl_cons, ih, List.sum_cons]; ring

/-- Claim C2: the estimated net equals the sale price minus the sum of
all commissions, the mortgage payoff, seller concessions, the ad-hoc
cost total, the title-fee total and the tax debit, rounded once to
cents; there is no floor or cap, so some inputs give a negative result,
which is a representable output, not an error. -/
theorem C2_net_formula :
    (∀ sp ca mp sc ot tf tx : ℚ,
      estimatedNetA sp ca mp sc ot tf tx
        = round2 (sp - ca - mp - sc - ot - tf - tx)) ∧
    (∀ (sp lc bc mp sc : ℚ) (oc : List ℚ) (tf tx : ℚ),
      estimatedNetB sp lc bc mp sc oc tf tx
        = round2 (sp - (lc + bc) - mp - sc - oc.sum - tf - tx)) ∧
    estimatedNetB 0 0 0 100 0 [] 0 0 = -100 ∧
    estimatedNetB 0 0 0 100 0 [] 0 0 < 0 := by
  refine ⟨fun sp ca mp sc ot tf tx => rfl, ?_, ?_, ?_⟩
  · intro sp lc bc mp sc oc tf tx
    simp only [estimatedNetB]
    rw [foldl_add_eq_sum]
    congr 1
    ring
  · simp only [estimatedNetB, List.foldl_nil]
    unfold round2
    norm_num
  · simp only [estimatedNetB, List.foldl_nil]
    unfold round2
    norm_num

/-! ### Claims about the money normalizer -/

/-- Claim C6 counterexample: `parseNumber "-5"` returns −5, a negative
number, refuting the claim that the normalizer's output is always
non-negative. -/
theorem C6_normalizer_cex : parseNumber "-5" = -5 ∧ parseNumber "-5" < 0 := by
  have h0 : (stripMoneyChars "-5").data = ['-', '5'] := by decide
  have h1 : List.span (fun c => c.isDigit) ['5'] = (['5'], []) := by decide
  have h2 : digitsToNat ['5'] = 5 := by decide
  have hval : parseNumber "-5" = -5 := by
    simp [parseNumber, jsStringToNumber, h0, parseStrSignedDecimal,
      parseStrUnsignedDecimal, h1, h2]
  exact ⟨hval, by rw [hval]; norm_num⟩

/-- Claim C6 amended: the normalizer is total and never throws, any
non-numeric, empty, or unparseable input yields 0, and the result is a
finite rational — but it is not always non-negative: an input with a
leading minus sign parses to a negative value (`parseNumber "-5" = -5`). -/
theorem C6_normalizer_amended :
    (∀ s : String, jsStringToNumber (stripMoneyChars s) = none → parseNumber s = 0) ∧
    parseNumber "" = 0 ∧
    parseNumber "abc" = 0 ∧
    parseNumber "$1,234.50" = 1234.50 ∧
    parseNumber "-5" = -5 := by
  refine ⟨?_, ?_, ?_, ?_, ?_⟩
  · intro s h
    simp [parseNumber, h]
  · have h0 : (stripMoneyChars "").data = [] := by decide
    simp [parseNumber, jsStringToNumber, h0]
  · have h0 : (stripMoneyChars "abc").data = ['a', 'b', 'c'] := by decide
    have h1 : List.span (fun c => c.isDigit) ['a', 'b', 'c'] = ([], ['a', 'b', 'c']) := by
      decide
    simp [parseNumber, jsStringToNumber, h0, parseStrSignedDecimal,
      parseStrUnsignedDecimal, h1]
  · have h0 : (stripMoneyChars "$1,234.50").data
        = ['1', '2', '3', '4', '.', '5', '0'] := by decide
    have h1 : List.span (fun c => c.isDigit) ['1', '2', '3', '4', '.', '5', '0']
        = (['1', '2', '3', '4'], ['.', '5', '0']) := by decide
    have h2 : List.span (fun c => c.isDigit) ['5', '0'] = (['5', '0'], []) := by decide
    have h3 : digitsToNat ['1', '2', '3', '4'] = 1234 := by decide
    have h4 : digitsToNat ['5', '0'] = 50 := by decide
    simp [parseNumber, jsStringToNumber, parseStrSignedDecimal,
      parseStrUnsignedDecimal, h0, h1, h2, h3, h4]
    norm_num
  · have h0 : (stripMoneyChars "-5").data = ['-', '5'] := by decide
    have h1 : List.span (fun c => c.isDigit) ['5'] = (['5'], []) := by decide
    have h2 : digitsToNat ['5'] = 5 := by decide
    simp [parseNumber, jsStringToNumber, h0, parseStrSignedDecimal,
      parseStrUnsignedDecimal, h1, h2]

/-- Claim C6 witness: the non-finite `Infinity` conversion falls back
to 0. -/
theorem C6_normalizer_amended_witness : parseNumber "Infinity" = 0 :=
  C6_normalizer_amended.1 "Infinity" (by decide)
